import Mathlib

/-!
Verification of the liticia-backend tender deduplication and ingestion pipeline.

This file gives a shallow embedding, in Lean, of the Python code in
`app/services/duplicate_detection_service.py`, `app/services/licitacion_service.py`,
`app/tasks/scraping_tasks.py`, `app/scrapers/placsp_scraper_v2.py` and
`app/scrapers/gencat_scraper.py`, and proves properties of that embedding.

Modelling conventions, used throughout:
* Python floats are modelled as exact rationals; Python datetimes as integer
  timestamps in seconds; `timedelta.days` is floor division by 86400.
* A Python dict field that the code reads with `d.get(k)` or `d.get(k, default)`
  is modelled as an `Option` field of a structure (`none` = key absent or value
  `None`), except where noted.
* `difflib.SequenceMatcher.ratio` is not reimplemented: it is threaded through
  as an oracle parameter `simt : String → String → ℚ`; every property proved
  here holds for an arbitrary oracle.
* The two mutable Python lists that the merge code aliases and extends in place
  (the `documentos` and `fuentes_adicionales` lists) are modelled with an
  explicit heap: the corresponding record fields hold heap addresses, and the
  functions that mutate the lists thread a `Heap` value explicitly.
-/

/-! ## Similarity thresholds (class constants of `DuplicateDetectionService`) -/

/-- `UMBRAL_EXPEDIENTE = 0.8` : 80 percent similarity on the reference code. -/
def UMBRAL_EXPEDIENTE : ℚ := 8/10

/-- `UMBRAL_TITULO = 0.85` : 85 percent similarity on the title. -/
def UMBRAL_TITULO : ℚ := 85/100

/-- `UMBRAL_PRESUPUESTO = 0.05` : 5 percent allowed budget difference. -/
def UMBRAL_PRESUPUESTO : ℚ := 5/100

/-- `UMBRAL_FECHA = 7` : 7 day window for date similarity. -/
def UMBRAL_FECHA : ℤ := 7

/-! ## Per-field similarity scores (`DuplicateDetectionService._similitud_*`) -/

/-! ## Python string primitives, modelled on the character list
(the byte-position based String primitives of Lean do not reduce in the
kernel; `Char.toLower` models `str.lower` on the ASCII range, which covers
every configured keyword and threshold comparison in this code base). -/

/-- Python `s.lower()`. -/
def pyToLower (s : String) : String := ⟨s.data.map Char.toLower⟩

/-- Python `s.startswith(pre)`. -/
def pyStartsWith (s pre : String) : Bool := pre.data.isPrefixOf s.data

/-- Python `s[:n]`. -/
def pyTake (s : String) (n : ℕ) : String := ⟨s.data.take n⟩

/-- Python `s.strip()`. -/
def pyTrim (s : String) : String :=
  ⟨((s.data.dropWhile Char.isWhitespace).reverse.dropWhile Char.isWhitespace).reverse⟩

/-- `_similitud_texto(texto1, texto2)`: returns `0.0` when either text is falsy
(`None` or the empty string), otherwise lowercases and strips both texts and
applies `SequenceMatcher.ratio`, modelled by the oracle `simt`. -/
def similitud_texto (simt : String → String → ℚ) (texto1 texto2 : Option String) : ℚ :=
  match texto1, texto2 with
  | some t1, some t2 =>
      if t1 = "" ∨ t2 = "" then 0
      else simt (pyTrim (pyToLower t1)) (pyTrim (pyToLower t2))
  | _, _ => 0

/-- `_similitud_presupuesto(presupuesto1, presupuesto2)`: `0.0` when either
budget is `None` or zero, otherwise `1 - min(|b1 - b2| / max(b1, b2), 1)`. -/
def similitud_presupuesto (presupuesto1 presupuesto2 : Option ℚ) : ℚ :=
  match presupuesto1, presupuesto2 with
  | some b1, some b2 =>
      if b1 = 0 ∨ b2 = 0 then 0
      else 1 - min (|b1 - b2| / max b1 b2) 1
  | _, _ => 0

/-- Python `timedelta.days` for a difference of `d` seconds: floor division
by 86400 (rounds towards negative infinity, as Python `//` does). -/
def pyDays (d : ℤ) : ℤ := Int.fdiv d 86400

/-- `_similitud_fecha(fecha1, fecha2)`: `0.0` when either date is `None`;
otherwise take the absolute value of the day difference, return `0.0` when it
exceeds `UMBRAL_FECHA`, and `1 - dias / UMBRAL_FECHA` otherwise. -/
def similitud_fecha (fecha1 fecha2 : Option ℤ) : ℚ :=
  match fecha1, fecha2 with
  | some f1, some f2 =>
      let diferencia_dias : ℤ := |pyDays (f1 - f2)|
      if diferencia_dias > UMBRAL_FECHA then 0
      else 1 - (diferencia_dias : ℚ) / (UMBRAL_FECHA : ℚ)
  | _, _ => 0

/-! ## The tender record and the list heap -/

/-- One entry of a `documentos` list: a dict with keys `nombre`, `tipo`, `url`. -/
structure Doc where
  nombre : Option String
  tipo : Option String
  url : Option String
deriving DecidableEq, Repr, Inhabited

/-- One entry of a `fuentes_adicionales` list, as appended by
`fusionar_licitaciones`: the secondary record source, id and url. -/
structure FuenteAdicional where
  fuente : Option String
  id_licitacion : Option String
  url : Option String
deriving DecidableEq, Repr, Inhabited

/-- The tender dict, restricted to the keys that
`DuplicateDetectionService` reads or writes.  `documentos` and
`fuentes_adicionales` are heap addresses of mutable lists (`none` = key
absent); every other field holds the value directly (`none` = key absent or
value `None`, which the code treats alike through `dict.get` and falsiness). -/
structure Licitacion where
  fuente : Option String
  id_licitacion : Option String
  url : Option String
  expediente : Option String
  titulo : Option String
  resumen : Option String
  organo_contratacion : Option String
  tipo_contrato : Option String
  procedimiento : Option String
  presupuesto_base : Option ℚ
  valor_estimado : Option ℚ
  fecha_publicacion : Option ℤ
  fecha_limite : Option String
  cpv : Option String
  lugar_ejecucion : Option String
  documentos : Option ℕ
  fuentes_adicionales : Option ℕ
deriving DecidableEq, Repr, Inhabited

/-- The heap of mutable Python lists reachable from tender dicts: one store
for `documentos` lists and one for `fuentes_adicionales` lists, addressed by
position. -/
structure Heap where
  docLists : List (List Doc)
  fuenteLists : List (List FuenteAdicional)
deriving DecidableEq, Repr, Inhabited

/-- Read the document list at address `a` (invalid addresses read as empty). -/
def Heap.readDocs (σ : Heap) (a : ℕ) : List Doc := σ.docLists.getD a []

/-- Overwrite the document list at address `a` (no-op on invalid addresses). -/
def Heap.writeDocs (σ : Heap) (a : ℕ) (l : List Doc) : Heap :=
  ⟨σ.docLists.set a l, σ.fuenteLists⟩

/-- Allocate a fresh document list, returning the new heap and its address. -/
def Heap.allocDocs (σ : Heap) (l : List Doc) : Heap × ℕ :=
  (⟨σ.docLists ++ [l], σ.fuenteLists⟩, σ.docLists.length)

/-- Read the additional-source list at address `a`. -/
def Heap.readFuentes (σ : Heap) (a : ℕ) : List FuenteAdicional := σ.fuenteLists.getD a []

/-- Overwrite the additional-source list at address `a`. -/
def Heap.writeFuentes (σ : Heap) (a : ℕ) (l : List FuenteAdicional) : Heap :=
  ⟨σ.docLists, σ.fuenteLists.set a l⟩

/-- Allocate a fresh additional-source list. -/
def Heap.allocFuentes (σ : Heap) (l : List FuenteAdicional) : Heap × ℕ :=
  (⟨σ.docLists, σ.fuenteLists ++ [l]⟩, σ.fuenteLists.length)

/-! ## `DuplicateDetectionService.son_duplicadas` -/

/-- `son_duplicadas(licitacion1, licitacion2)`: records from the same source
are never duplicates; otherwise the four per-field scores are computed and the
records are duplicates when at least 2 of the 3 composite criteria hold. -/
def son_duplicadas (simt : String → String → ℚ) (licitacion1 licitacion2 : Licitacion) : Bool :=
  if licitacion1.fuente = licitacion2.fuente then false
  else
    let sim_expediente := similitud_texto simt licitacion1.expediente licitacion2.expediente
    let sim_titulo := similitud_texto simt licitacion1.titulo licitacion2.titulo
    let sim_presupuesto :=
      similitud_presupuesto licitacion1.presupuesto_base licitacion2.presupuesto_base
    let sim_fecha := similitud_fecha licitacion1.fecha_publicacion licitacion2.fecha_publicacion
    let criterios_cumplidos : ℕ :=
      (if sim_expediente ≥ UMBRAL_EXPEDIENTE then 1 else 0) +
      (if sim_titulo ≥ UMBRAL_TITULO ∧ sim_presupuesto ≥ 1 - UMBRAL_PRESUPUESTO then 1 else 0) +
      (if sim_titulo ≥ UMBRAL_TITULO ∧ sim_fecha ≥ 7/10 then 1 else 0)
    decide (criterios_cumplidos ≥ 2)

/-! ## `DuplicateDetectionService.fusionar_licitaciones` -/

/-- Python falsiness of an optional string: `None` and `""` are falsy. -/
def truthyStr : Option String → Bool
  | none => false
  | some s => decide (s ≠ "")

/-- Python falsiness of an optional number: `None` and `0` are falsy. -/
def truthyQ : Option ℚ → Bool
  | none => false
  | some q => decide (q ≠ 0)

/-- One step of the field-completion loop of `fusionar_licitaciones`:
`if not fusionada.get(campo) and licitacion_secundaria.get(campo):
fusionada[campo] = licitacion_secundaria[campo]`, for a string-valued field. -/
def fillCampoStr (p s : Option String) : Option String :=
  if !truthyStr p && truthyStr s then s else p

/-- The same completion step for a numeric field. -/
def fillCampoQ (p s : Option ℚ) : Option ℚ :=
  if !truthyQ p && truthyQ s then s else p

/-- `fusionar_licitaciones(licitacion_principal, licitacion_secundaria)`.
The Python code shallow-copies the principal dict, so the copy holds the same
list addresses; it then appends the secondary provenance entry to the
(possibly freshly allocated) `fuentes_adicionales` list, appends those
secondary documents whose `nombre` is not already present to the principal
document list in place, and finally fills the nine falsy content fields from
the secondary.  Returns the updated heap and the merged dict. -/
def fusionar_licitaciones (σ : Heap) (licitacion_principal licitacion_secundaria : Licitacion) :
    Heap × Licitacion :=
  -- fusionada = licitacion_principal.copy()  (shallow: same list addresses)
  let fusionada := licitacion_principal
  -- fusionada['fuentes_adicionales'] = fusionada.get('fuentes_adicionales', [])
  let pfa := match fusionada.fuentes_adicionales with
    | some a => (σ, a)
    | none => σ.allocFuentes []
  let σ := pfa.1
  let fa := pfa.2
  let fusionada := { fusionada with fuentes_adicionales := some fa }
  -- fusionada['fuentes_adicionales'].append({...})
  let entrada : FuenteAdicional :=
    ⟨licitacion_secundaria.fuente, licitacion_secundaria.id_licitacion,
     licitacion_secundaria.url⟩
  let σ := σ.writeFuentes fa (σ.readFuentes fa ++ [entrada])
  -- docs_principal = fusionada.get('documentos', [])
  let pd := match fusionada.documentos with
    | some a => (σ, a)
    | none => σ.allocDocs []
  let σ := pd.1
  let da := pd.2
  let docs_principal := σ.readDocs da
  -- docs_secundaria = licitacion_secundaria.get('documentos', [])
  let docs_secundaria := match licitacion_secundaria.documentos with
    | some a => σ.readDocs a
    | none => []
  -- nombres_existentes = {doc.get('nombre') for doc in docs_principal};
  -- append the secondary docs whose nombre is not in that (fixed) set
  let nombres_existentes := docs_principal.map (fun doc => doc.nombre)
  let nuevos := docs_secundaria.filter (fun doc => decide (doc.nombre ∉ nombres_existentes))
  let σ := σ.writeDocs da (docs_principal ++ nuevos)
  -- fusionada['documentos'] = docs_principal  (same address)
  let fusionada := { fusionada with documentos := some da }
  -- the field-completion loop over the nine content fields
  let fusionada :=
    { fusionada with
      resumen := fillCampoStr fusionada.resumen licitacion_secundaria.resumen
      organo_contratacion :=
        fillCampoStr fusionada.organo_contratacion licitacion_secundaria.organo_contratacion
      tipo_contrato := fillCampoStr fusionada.tipo_contrato licitacion_secundaria.tipo_contrato
      procedimiento := fillCampoStr fusionada.procedimiento licitacion_secundaria.procedimiento
      presupuesto_base :=
        fillCampoQ fusionada.presupuesto_base licitacion_secundaria.presupuesto_base
      valor_estimado := fillCampoQ fusionada.valor_estimado licitacion_secundaria.valor_estimado
      fecha_limite := fillCampoStr fusionada.fecha_limite licitacion_secundaria.fecha_limite
      cpv := fillCampoStr fusionada.cpv licitacion_secundaria.cpv
      lugar_ejecucion :=
        fillCampoStr fusionada.lugar_ejecucion licitacion_secundaria.lugar_ejecucion }
  (σ, fusionada)

/-! ## `DuplicateDetectionService.detectar_duplicados_en_lista` -/

/-- The hard-coded source priority: `prioridad_fuentes = {'PLACSP': 0, 'GENCAT': 1}`
read with `.get(fuente, 999)`. -/
def prioridad_fuente (f : String) : ℕ :=
  if f = "PLACSP" then 0 else if f = "GENCAT" then 1 else 999

/-- The sort key `lambda x: prioridad_fuentes.get(x.get('fuente', ''), 999)`. -/
def clavePrioridad (x : Licitacion) : ℕ := prioridad_fuente (x.fuente.getD "")

/-- `sorted(licitaciones, key=...)` : Python sorted is a stable sort by the
priority key; modelled with the (stable) `List.mergeSort`. -/
def sortPorFuente (licitaciones : List Licitacion) : List Licitacion :=
  licitaciones.mergeSort (fun a b => clavePrioridad a ≤ clavePrioridad b)

/-- The inner scan of `detectar_duplicados_en_lista`: collect, in increasing
order, the indices `j ≥ j0` of records not yet claimed that match the anchor
`lic1`.  The Python loop also inserts each match into `indices_procesados` as
it goes, but the scan only ever visits strictly larger indices afterwards, so
those insertions cannot affect its own later membership tests; the scan is
therefore computed against the entry set `proc`. -/
def duplicadosDesde (simt : String → String → ℚ) (lic1 : Licitacion)
    (ordenadas : List Licitacion) (proc : List ℕ) (j : ℕ) : List ℕ :=
  if h : j < ordenadas.length then
    if j ∈ proc then duplicadosDesde simt lic1 ordenadas proc (j+1)
    else if son_duplicadas simt lic1 (ordenadas.get ⟨j, h⟩) then
      j :: duplicadosDesde simt lic1 ordenadas proc (j+1)
    else duplicadosDesde simt lic1 ordenadas proc (j+1)
  else []
termination_by ordenadas.length - j

/-- `lic_fusionada = lic1.copy(); for idx in duplicados: lic_fusionada =
fusionar_licitaciones(lic_fusionada, ordenadas[idx])` — the left fold of the
merge over the matched secondaries, threading the heap. -/
def fusionarFold (σ : Heap) (lic1 : Licitacion) (dups : List Licitacion) : Heap × Licitacion :=
  dups.foldl (fun acc s => fusionar_licitaciones acc.1 acc.2 s) (σ, lic1)

/-- The outer loop of `detectar_duplicados_en_lista` over indices `i`, carrying
`indices_procesados` (as a list of indices), the heap and the accumulated
output `licitaciones_unicas`. -/
def detectarAux (simt : String → String → ℚ) (ordenadas : List Licitacion) :
    ℕ → List ℕ → Heap → List Licitacion → Heap × List Licitacion
  | i, proc, σ, acc =>
    if h : i < ordenadas.length then
      if i ∈ proc then detectarAux simt ordenadas (i+1) proc σ acc
      else
        let lic1 := ordenadas.get ⟨i, h⟩
        let dups := duplicadosDesde simt lic1 ordenadas proc (i+1)
        let fol := fusionarFold σ lic1 (dups.map (fun k => ordenadas.getD k default))
        detectarAux simt ordenadas (i+1) (proc ++ dups ++ [i]) fol.1 (acc ++ [fol.2])
    else (σ, acc)
termination_by i => ordenadas.length - i

/-- `detectar_duplicados_en_lista(licitaciones)`: empty input short-circuits;
otherwise sort by source priority and run the anchor-scan loop from index 0
with no claimed indices and no output. -/
def detectar_duplicados_en_lista (simt : String → String → ℚ) (σ : Heap)
    (licitaciones : List Licitacion) : Heap × List Licitacion :=
  if licitaciones = [] then (σ, [])
  else detectarAux simt (sortPorFuente licitaciones) 0 [] σ []

/-- The clustering pass as the specification words it: the head of the list is
the anchor; every later record matching the anchor (matches evaluated only
against the anchor) is folded into it left-to-right; the rest is clustered
recursively.  Stated over an already-sorted list. -/
def clusterSpec (simt : String → String → ℚ) : Heap → List Licitacion → Heap × List Licitacion
  | σ, [] => (σ, [])
  | σ, anchor :: rest =>
    let matched := rest.filter (fun b => son_duplicadas simt anchor b)
    let unmatched := rest.filter (fun b => ! son_duplicadas simt anchor b)
    let fol := fusionarFold σ anchor matched
    let out := clusterSpec simt fol.1 unmatched
    (out.1, fol.2 :: out.2)
termination_by _ l => l.length
decreasing_by
  simp only [List.length_cons]
  exact Nat.lt_succ_of_le (List.length_filter_le _ _)

/-- The records not yet claimed at positions `i` and beyond, in position
order: the sublist of `ordenadas` the outer loop still has to anchor or
absorb. -/
def restantes (ordenadas : List Licitacion) (proc : List ℕ) : ℕ → List Licitacion
  | i =>
    if h : i < ordenadas.length then
      if i ∈ proc then restantes ordenadas proc (i+1)
      else ordenadas.get ⟨i, h⟩ :: restantes ordenadas proc (i+1)
    else []
termination_by i => ordenadas.length - i

/-! ## Relevance classifiers (`es_licitacion_tic`) -/

/-- Python substring test `needle in hay` on strings. -/
def strContains (hay needle : String) : Bool :=
  hay.toList.tails.any (fun t => needle.toList.isPrefixOf t)

/-- `PLACSPScraperV2.CPV_TIC`. -/
def CPV_TIC_PLACSP : List String := ["48", "72", "30200", "32400", "32420", "32500"]

/-- `PLACSPScraperV2.KEYWORDS_TIC`. -/
def KEYWORDS_TIC_PLACSP : List String :=
  ["software", "aplicación", "aplicacion", "sistema informático", "sistema informatico",
   "desarrollo", "programación", "programacion",
   "cloud", "nube",
   "ciberseguridad", "seguridad informática", "seguridad informatica",
   "base de datos", "bbdd", "bases de datos",
   "inteligencia artificial", " ia ", "machine learning", "aprendizaje automático",
   "devops", "ci/cd", "integración continua",
   "erp", "crm", "sap", "oracle",
   "web", "portal", "plataforma digital", "sitio web",
   "infraestructura ti", "tecnología", "tecnologia", "tecnologías", "tecnologias",
   "migración", "migracion", "modernización", "modernizacion", "transformación digital",
   "servidor", "servidores", "hosting", "datacenter",
   "virtualización", "virtualizacion", "contenedores", "kubernetes", "docker",
   "big data", "analítica", "analitica", "business intelligence",
   "blockchain", "iot", "internet de las cosas",
   "app móvil", "app movil", "aplicación móvil", "aplicacion movil",
   "api", "microservicios", "arquitectura",
   "backup", "respaldo", "recuperación", "recuperacion",
   "firewall", "antivirus", "vpn",
   "licencia", "licencias", "microsoft", "adobe", "autodesk"]

/-- The outcome of calling a Python function: a returned value, or a raised
exception. -/
inductive PyResult (α : Type) where
  | ok (val : α)
  | exn
deriving DecidableEq, Repr

/-- The fields of a raw PLACSP record dict as `es_licitacion_tic` reads them,
after the `dict.get` defaults: `codigos_cpv` defaults to the empty list, and
`parse_entry` only ever stores truthy strings in it (it filters on
`elem.text`), so its entries are plain strings.  `titulo` and `resumen` hold
the value produced by `.get(key, "")`: either a string — an absent key reads
as `some ""` — or Python `None` (`none` here), which is what `parse_entry`
stores when `atom:title` / `atom:summary` is missing or empty. -/
structure PlacspRaw where
  codigos_cpv : List String
  titulo : Option String
  resumen : Option String
deriving DecidableEq, Repr, Inhabited

/-- `PLACSPScraperV2.es_licitacion_tic(licitacion)`: relevant when some CPV
code of the record starts with some configured CPV family (checked first, with
an early return), or some configured keyword occurs in the lowercased title,
or in the lowercased summary.  `licitacion.get('titulo', '').lower()` raises
`AttributeError` when the stored value is `None`, and likewise for the
summary, so those paths return an error. -/
def es_licitacion_tic (licitacion : PlacspRaw) : PyResult Bool :=
  if licitacion.codigos_cpv.any (fun cpv =>
      CPV_TIC_PLACSP.any (fun cpv_tic => pyStartsWith cpv cpv_tic)) then .ok true
  else
    match licitacion.titulo with
    | none => .exn
    | some titulo =>
      if KEYWORDS_TIC_PLACSP.any (fun keyword => strContains (pyToLower titulo) keyword) then
        .ok true
      else
        match licitacion.resumen with
        | none => .exn
        | some resumen =>
          if KEYWORDS_TIC_PLACSP.any (fun keyword =>
              strContains (pyToLower resumen) keyword) then
            .ok true
          else .ok false

/-- `GencatScraper.CPV_TIC`. -/
def CPV_TIC_GENCAT : List String :=
  ["48000000-8", "48100000-9", "48200000-0", "48300000-1", "48400000-2",
   "48500000-3", "48600000-4", "48700000-5", "48800000-6", "48900000-7",
   "72000000-5", "72100000-6", "72200000-7", "72300000-8", "72400000-4",
   "72500000-0", "72600000-1"]

/-- `GencatScraper.KEYWORDS_TIC`. -/
def KEYWORDS_TIC_GENCAT : List String :=
  ["programari", "software", "aplicació", "aplicación",
   "sistema informàtic", "sistema informático",
   "desenvolupament", "desarrollo",
   "base de dades", "base de datos",
   "tecnologia", "tecnología",
   "informàtica", "informática",
   "digital", "web", "app", "cloud",
   "ciberseguretat", "ciberseguridad",
   "intel·ligència artificial", "inteligencia artificial",
   "big data", "analítica", "analytics"]

/-- The fields of a raw Gencat record dict as `_es_licitacion_tic` reads
them.  `codi_cpv` holds the value of `.get('codi_cpv', '')`: a string — an
absent key reads as `some ""` — or `None` (`none` here, as a null JSON field
would produce).  The two text fields are passed through `or ""`, so both an
absent key and a `None` value read as the empty string (`none` here covers
both; `getD ""` applies the guard). -/
structure GencatRaw where
  codi_cpv : Option String
  denominacio : Option String
  objecte_contracte : Option String
deriving DecidableEq, Repr, Inhabited

/-- `GencatScraper._es_licitacion_tic(licitacion)`: relevant when the CPV code
starts with the first two characters of some configured CPV code, or some
configured keyword (lowercased) occurs in the string
`f"{titulo} {descripcion}"` built from the lowercased title and description.
`cpv.startswith(...)` raises `AttributeError` when `cpv` is `None` (the
configured CPV list is non-empty, so the generator evaluates it). -/
def gencat_es_licitacion_tic (licitacion : GencatRaw) : PyResult Bool :=
  match licitacion.codi_cpv with
  | none => .exn
  | some cpv =>
    if CPV_TIC_GENCAT.any (fun tic_cpv => pyStartsWith cpv (pyTake tic_cpv 2)) then
      .ok true
    else
      let titulo := pyToLower (licitacion.denominacio.getD "")
      let descripcion := pyToLower (licitacion.objecte_contracte.getD "")
      let texto_completo := titulo ++ " " ++ descripcion
      .ok (KEYWORDS_TIC_GENCAT.any (fun keyword =>
        strContains texto_completo (pyToLower keyword)))

/-- The relevance predicate as the specification claim words it, for a record
carrying codes `codes`, title `title` and summary `summary`: some code matches
a configured relevant-code prefix, or some configured keyword appears
case-insensitively as a substring of the title, or of the summary. -/
def claimRelevant (prefijos keywords : List String)
    (codes : List String) (title summary : String) : Bool :=
  codes.any (fun c => prefijos.any (fun p => pyStartsWith c p)) ||
  keywords.any (fun k => strContains (pyToLower title) k) ||
  keywords.any (fun k => strContains (pyToLower summary) k)

/-! ## `PLACSPScraperV2.scrape_recent` -/

/-- A feed entry as `scrape_recent` sees it: the `fecha_actualizacion` dict
value (a raw timestamp string read with `.get('fecha_actualizacion', '')`),
plus an opaque payload standing for the other keys of the record dict. -/
structure FeedEntry where
  fecha_actualizacion : Option String
  payload : String
deriving DecidableEq, Repr, Inhabited

/-- The body of `scrape_recent`, with the stream produced by `scrape_all`
abstracted as the input list and `datetime.fromisoformat` (composed with the
timezone-suffix stripping) abstracted as the oracle
`parseISO : String → Option ℤ` (`none` = the parse raised).  A record whose
date parses and lies strictly before the cutoff breaks the loop; a parse
failure appends the record and continues. -/
def scrape_recent (parseISO : String → Option ℤ) (cutoff_date : ℤ) :
    List FeedEntry → List FeedEntry
  | [] => []
  | licitacion :: rest =>
    match parseISO (licitacion.fecha_actualizacion.getD "") with
    | some fecha =>
        if fecha < cutoff_date then []
        else licitacion :: scrape_recent parseISO cutoff_date rest
    | none => licitacion :: scrape_recent parseISO cutoff_date rest

/-- An entry is outside the recency window when its timestamp parses and is
strictly before the cutoff; an unparseable timestamp is never outside. -/
def fueraDeVentana (parseISO : String → Option ℤ) (cutoff_date : ℤ) (e : FeedEntry) : Bool :=
  match parseISO (e.fecha_actualizacion.getD "") with
  | some fecha => decide (fecha < cutoff_date)
  | none => false

/-- Reverse-chronological ordering of two entries, on the entries whose
timestamps parse: the later entry in the stream is not newer. -/
def ordenDescendente (parseISO : String → Option ℤ) (a b : FeedEntry) : Bool :=
  match parseISO (a.fecha_actualizacion.getD ""), parseISO (b.fecha_actualizacion.getD "") with
  | some ta, some tb => decide (tb ≤ ta)
  | _, _ => true

/-! ## Ingestion: `LicitacionService.create`, `LicitacionService.update` and
the per-record body of `scrape_placsp_recent` -/

/-- A Python value as stored in a scraped record dict or on the ORM object:
`None`, a string, a number, a datetime (integer timestamp), or a list of
strings (the CPV code list). -/
inductive PyVal where
  | vnone
  | vstr (s : String)
  | vnum (q : ℚ)
  | vdatetime (t : ℤ)
  | vlist (l : List String)
deriving DecidableEq, Repr

/-- An attribute map: the key-value pairs of a record dict, or the tracked
attributes of a stored record.  Keys are assumed unique, as in a Python dict;
iteration order is list order (Python dicts iterate in insertion order). -/
abbrev Attrs := List (String × PyVal)

/-- Dict lookup / `getattr`: the value at key `k`, if the key is present. -/
def lookupAttr (attrs : Attrs) (k : String) : Option PyVal :=
  (attrs.find? (fun p => p.1 = k)).map (fun p => p.2)

/-- `setattr` on an existing key: replace the value at `k`, leaving the key
set unchanged. -/
def setAttr (attrs : Attrs) (k : String) (v : PyVal) : Attrs :=
  attrs.map (fun p => if p.1 = k then (k, v) else p)

/-- `setattr` on a key that is set unconditionally (`licitacion.updated_at =
datetime.now()`): replace it if present, append it otherwise. -/
def setAttrAlways (attrs : Attrs) (k : String) (v : PyVal) : Attrs :=
  if (lookupAttr attrs k).isSome then setAttr attrs k v else attrs ++ [(k, v)]

/-- Apply `f` to the value at key `k` when the key is present (the
`if k in licitacion_data:` guards of `LicitacionService.create`). -/
def mapAttr (attrs : Attrs) (k : String) (f : PyVal → PyVal) : Attrs :=
  attrs.map (fun p => if p.1 = k then (k, f p.2) else p)

/-- The data-normalisation part of `LicitacionService.create`: parse
`fecha_actualizacion` when it is a string (on failure replace it with
`datetime.now()`), parse `fecha_limite_presentacion` and `fecha_adjudicacion`
when they are strings (on failure leave them unchanged), serialise the
`codigos_cpv` list to a JSON string (`json.dumps` abstracted as the oracle
`dumps`), and pop the `documentos` key.  The resulting pairs are the keyword
arguments then passed to the constructor call `Licitacion(**licitacion_data)`,
which is modelled separately by `licitacion_constructor`. -/
def create_transform (parseISO : String → Option ℤ) (now : ℤ)
    (dumps : List String → String) (licitacion_data : Attrs) : Attrs :=
  let d := mapAttr licitacion_data "fecha_actualizacion" (fun v =>
    match v with
    | .vstr s => match parseISO s with
      | some t => .vdatetime t
      | none => .vdatetime now
    | v => v)
  let d := mapAttr d "fecha_limite_presentacion" (fun v =>
    match v with
    | .vstr s => match parseISO s with
      | some t => .vdatetime t
      | none => v
    | v => v)
  let d := mapAttr d "fecha_adjudicacion" (fun v =>
    match v with
    | .vstr s => match parseISO s with
      | some t => .vdatetime t
      | none => v
    | v => v)
  let d := mapAttr d "codigos_cpv" (fun v =>
    match v with
    | .vlist l => .vstr (dumps l)
    | v => v)
  d.filter (fun p => p.1 ≠ "documentos")

/-- The attribute names of the `Licitacion` declarative class in
`app/models/licitacion.py`: its mapped columns and its relationship names.
Notably the class defines no `id_licitacion`, `expediente`,
`fecha_actualizacion`, `resumen`, `codigos_cpv` or `fecha_limite_presentacion`
attribute, although the service and schema layers refer to them. -/
def LICITACION_ATTRS : List String :=
  ["id", "titulo", "descripcion", "organismo_id", "presupuesto_base",
   "fecha_publicacion", "fecha_vencimiento", "tipo_contrato", "procedimiento",
   "codigo_cpv", "ubicacion_ccaa", "ubicacion_provincia", "ubicacion_municipio",
   "estado", "url_fuente", "fuente", "hash_contenido", "created_at", "updated_at",
   "organismo", "tecnologias", "conceptos", "documentos", "resumen_ia",
   "adjudicaciones"]

/-- `LicitacionService.update(licitacion_id, licitacion_data)`, applied to the
already-fetched stored row `licitacion`: iterate over the incoming pairs; for
every key that is an attribute of the `Licitacion` model (`hasattr`), compare
`getattr` — the stored column value, `None` when the column was never set —
with the incoming value and overwrite on inequality, recording that a change
happened; when at least one field changed, set `updated_at` to `now` (the
flush then writes the row).  Returns the updated row and `has_changes`. -/
def service_update (now : ℤ) (licitacion : Attrs) (licitacion_data : Attrs) : Attrs × Bool :=
  let step := licitacion_data.foldl (fun (st : Attrs × Bool) kv =>
    if kv.1 ∈ LICITACION_ATTRS then
      let current_value := (lookupAttr st.1 kv.1).getD .vnone
      if current_value = kv.2 then st
      else (setAttrAlways st.1 kv.1 kv.2, true)
    else st) (licitacion, false)
  if step.2 then (setAttrAlways step.1 "updated_at" (.vdatetime now), true) else step

/-- `LicitacionService.get_by_id_licitacion(id_licitacion)`: the query filter
is built from the class attribute `Licitacion.id_licitacion`.  The model in
`app/models/licitacion.py` defines no such attribute, so this access raises
`AttributeError`; on a model that carried the column it would return the
first stored row whose `id_licitacion` equals the argument. -/
def get_by_id_licitacion (db : List Attrs) (idv : Option PyVal) : PyResult (Option ℕ) :=
  if "id_licitacion" ∈ LICITACION_ATTRS then
    .ok (db.findIdx? (fun row => lookupAttr row "id_licitacion" = idv))
  else .exn

/-- The constructor call `Licitacion(**licitacion_data)`: the SQLAlchemy
declarative constructor accepts only mapped attribute names as keyword
arguments and raises `TypeError` on any other key. -/
def licitacion_constructor (data : Attrs) : PyResult Attrs :=
  if data.all (fun p => decide (p.1 ∈ LICITACION_ATTRS)) then .ok data else .exn

/-- `LicitacionService.create(licitacion_data)`: normalise the dict with
`create_transform`, then construct and persist the row. -/
def service_create (parseISO : String → Option ℤ) (now : ℤ) (dumps : List String → String)
    (licitacion_data : Attrs) : PyResult Attrs :=
  licitacion_constructor (create_transform parseISO now dumps licitacion_data)

/-- One iteration of the per-record loop of the `scrape_placsp_recent` task,
including its per-record `try/except`: any exception raised while processing
the record — here the `AttributeError` of `get_by_id_licitacion` or the
`TypeError` of the constructor — is caught, logged, and the loop continues
with the store unchanged.  Returns the new store, whether the record was
counted as new (`nuevas`), and whether `update` reported a change
(`actualizadas`). -/
def ingest_one (parseISO : String → Option ℤ) (now : ℤ) (dumps : List String → String)
    (db : List Attrs) (lic_data : Attrs) : List Attrs × Bool × Bool :=
  match get_by_id_licitacion db (lookupAttr lic_data "id_licitacion") with
  | .exn => (db, false, false)
  | .ok (some i) =>
      let r := service_update now (db.getD i []) lic_data
      (db.set i r.1, false, r.2)
  | .ok none =>
      match service_create parseISO now dumps lic_data with
      | .exn => (db, false, false)
      | .ok row => (db ++ [row], true, false)

/-! ## Helper lemmas -/

/-- Counting at least 2 of 3 indicator values is the same as some two of the
three propositions holding together. -/
theorem atLeastTwo_iff (p q r : Prop) [Decidable p] [Decidable q] [Decidable r] :
    ((if p then 1 else 0) + (if q then 1 else 0) + (if r then 1 else 0) : ℕ) ≥ 2 ↔
      (p ∧ q) ∨ (p ∧ r) ∨ (q ∧ r) := by
  by_cases hp : p <;> by_cases hq : q <;> by_cases hr : r <;> simp [hp, hq, hr]

/-- A text-similarity oracle for concrete witnesses: 1 on equal strings, else 0. -/
def simtEq : String → String → ℚ := fun s t => if s = t then 1 else 0

/-! ## C4 -/

/-- C4: for every pair of tender records whose source tags are equal,
`son_duplicadas` returns false, regardless of all other fields. -/
theorem son_duplicadas_same_fuente (simt : String → String → ℚ) (a b : Licitacion)
    (h : a.fuente = b.fuente) : son_duplicadas simt a b = false := by
  simp [son_duplicadas, h]

/-- Witness for C4: two otherwise identical PLACSP records are not duplicates. -/
theorem son_duplicadas_same_fuente_witness :
    ({ (default : Licitacion) with fuente := some "PLACSP", expediente := some "E1" } :
        Licitacion).fuente =
      ({ (default : Licitacion) with fuente := some "PLACSP", expediente := some "E1" } :
        Licitacion).fuente ∧
    son_duplicadas simtEq
      { (default : Licitacion) with fuente := some "PLACSP", expediente := some "E1" }
      { (default : Licitacion) with fuente := some "PLACSP", expediente := some "E1" } = false :=
  ⟨rfl, son_duplicadas_same_fuente simtEq _ _ rfl⟩

/-! ## C5 -/

/-- C5: budget similarity is 0 when either budget is missing or zero, is
otherwise `1 - min(|b1-b2|/max(b1,b2), 1)`, is symmetric, and is 1 on equal
nonzero budgets. -/
theorem similitud_presupuesto_spec :
    (∀ b2, similitud_presupuesto none b2 = 0) ∧
    (∀ b1, similitud_presupuesto b1 none = 0) ∧
    (∀ b1 b2 : ℚ, b1 = 0 ∨ b2 = 0 → similitud_presupuesto (some b1) (some b2) = 0) ∧
    (∀ b1 b2 : ℚ, b1 ≠ 0 → b2 ≠ 0 →
      similitud_presupuesto (some b1) (some b2) = 1 - min (|b1 - b2| / max b1 b2) 1) ∧
    (∀ a b, similitud_presupuesto a b = similitud_presupuesto b a) ∧
    (∀ b : ℚ, b ≠ 0 → similitud_presupuesto (some b) (some b) = 1) := by
  refine ⟨fun b2 => rfl, fun b1 => by cases b1 <;> rfl, ?_, ?_, ?_, ?_⟩
  · intro b1 b2 h
    simp [similitud_presupuesto, h]
  · intro b1 b2 h1 h2
    simp [similitud_presupuesto, h1, h2]
  · intro a b
    cases a with
    | none => cases b <;> rfl
    | some x =>
      cases b with
      | none => rfl
      | some y =>
        simp only [similitud_presupuesto]
        by_cases h1 : x = 0 <;> by_cases h2 : y = 0 <;>
          simp [h1, h2, abs_sub_comm, max_comm]
  · intro b h
    simp [similitud_presupuesto, h]

/-- Witness for C5: equal nonzero budgets score 1; a zero budget scores 0. -/
theorem similitud_presupuesto_spec_witness :
    similitud_presupuesto (some 50000) (some 50000) = 1 ∧
    similitud_presupuesto (some 2) (some 0) = 0 :=
  ⟨similitud_presupuesto_spec.2.2.2.2.2 50000 (by norm_num),
   similitud_presupuesto_spec.2.2.1 2 0 (Or.inr rfl)⟩

/-! ## C6 -/

/-- C6: date similarity is 0 when either date is missing, 0 when the absolute
day difference exceeds the 7-day window, and otherwise equals the linear decay
`1 - min(|days|, W)/W` of the day difference over the window. -/
theorem similitud_fecha_spec :
    (∀ f2, similitud_fecha none f2 = 0) ∧
    (∀ f1, similitud_fecha f1 none = 0) ∧
    (∀ f1 f2 : ℤ, |pyDays (f1 - f2)| > UMBRAL_FECHA → similitud_fecha (some f1) (some f2) = 0) ∧
    (∀ f1 f2 : ℤ, |pyDays (f1 - f2)| ≤ UMBRAL_FECHA →
      similitud_fecha (some f1) (some f2)
        = 1 - ((min |pyDays (f1 - f2)| UMBRAL_FECHA : ℤ) : ℚ) / (UMBRAL_FECHA : ℚ)) := by
  refine ⟨fun f2 => rfl, fun f1 => by cases f1 <;> rfl, ?_, ?_⟩
  · intro f1 f2 h
    simp [similitud_fecha, h]
  · intro f1 f2 h
    rw [min_eq_left h]
    simp [similitud_fecha, not_lt.mpr h]

/-- Witness for C6: dates 3 days apart score 4/7; dates 8 days apart score 0. -/
theorem similitud_fecha_spec_witness :
    |pyDays ((3 * 86400 : ℤ) - 0)| ≤ UMBRAL_FECHA ∧
    similitud_fecha (some (3 * 86400)) (some 0) = 4/7 ∧
    |pyDays ((8 * 86400 : ℤ) - 0)| > UMBRAL_FECHA ∧
    similitud_fecha (some (8 * 86400)) (some 0) = 0 := by
  refine ⟨by decide, ?_, by decide, similitud_fecha_spec.2.2.1 _ _ (by decide)⟩
  rw [similitud_fecha_spec.2.2.2 _ _ (by decide)]
  have h3 : (|pyDays (3 * 86400 - 0)| ⊓ UMBRAL_FECHA : ℤ) = 3 := by decide
  rw [h3]
  norm_num [UMBRAL_FECHA]

/-! ## C1 -/

/-- C1: for records from different sources, `son_duplicadas` is true exactly
when at least two of the three composite criteria hold: (1) reference-code
similarity at least 0.80; (2) title similarity at least 0.85 and budget
similarity at least 0.95; (3) title similarity at least 0.85 and date
similarity at least 0.70 — the similarities being the per-field scores of the
detector. -/
theorem son_duplicadas_criteria (simt : String → String → ℚ) (a b : Licitacion)
    (h : a.fuente ≠ b.fuente) :
    son_duplicadas simt a b = true ↔
      (let c1 := similitud_texto simt a.expediente b.expediente ≥ 8/10
       let c2 := similitud_texto simt a.titulo b.titulo ≥ 85/100 ∧
         similitud_presupuesto a.presupuesto_base b.presupuesto_base ≥ 95/100
       let c3 := similitud_texto simt a.titulo b.titulo ≥ 85/100 ∧
         similitud_fecha a.fecha_publicacion b.fecha_publicacion ≥ 7/10
       (c1 ∧ c2) ∨ (c1 ∧ c3) ∨ (c2 ∧ c3)) := by
  have h95 : (1 : ℚ) - UMBRAL_PRESUPUESTO = 95/100 := by norm_num [UMBRAL_PRESUPUESTO]
  simp only [son_duplicadas, if_neg h, decide_eq_true_eq, h95, UMBRAL_EXPEDIENTE, UMBRAL_TITULO]
  exact atLeastTwo_iff _ _ _

/-- A PLACSP record used in the C1 witness. -/
def licC1a : Licitacion := { (default : Licitacion) with
  fuente := some "PLACSP"
  expediente := some "EXP-2024-001"
  titulo := some "Obra"
  presupuesto_base := some 100
  fecha_publicacion := some 0 }

/-- A GENCAT record used in the C1 witness, with the same content fields. -/
def licC1b : Licitacion := { licC1a with fuente := some "GENCAT" }

/-- Witness for C1: a PLACSP and a GENCAT record with identical reference
code, title, budget and date satisfy criteria 1, 2 and 3 and are duplicates. -/
theorem son_duplicadas_criteria_witness :
    licC1a.fuente ≠ licC1b.fuente ∧
    (son_duplicadas simtEq licC1a licC1b = true ↔
      (let c1 := similitud_texto simtEq licC1a.expediente licC1b.expediente ≥ 8/10
       let c2 := similitud_texto simtEq licC1a.titulo licC1b.titulo ≥ 85/100 ∧
         similitud_presupuesto licC1a.presupuesto_base licC1b.presupuesto_base ≥ 95/100
       let c3 := similitud_texto simtEq licC1a.titulo licC1b.titulo ≥ 85/100 ∧
         similitud_fecha licC1a.fecha_publicacion licC1b.fecha_publicacion ≥ 7/10
       (c1 ∧ c2) ∨ (c1 ∧ c3) ∨ (c2 ∧ c3))) :=
  ⟨by decide, son_duplicadas_criteria simtEq licC1a licC1b (by decide)⟩

/-! ## C2 -/

/-- When the principal value is truthy the completion step keeps it. -/
theorem fillCampoStr_keeps (p s : Option String) (h : truthyStr p = true) :
    fillCampoStr p s = p := by
  simp [fillCampoStr, h]

/-- When the principal value is falsy and the secondary truthy, the completion
step takes the secondary value. -/
theorem fillCampoStr_fills (p s : Option String) (hp : truthyStr p = false)
    (hs : truthyStr s = true) : fillCampoStr p s = s := by
  simp [fillCampoStr, hp, hs]

/-- Numeric version of `fillCampoStr_keeps`. -/
theorem fillCampoQ_keeps (p s : Option ℚ) (h : truthyQ p = true) : fillCampoQ p s = p := by
  simp [fillCampoQ, h]

/-- Numeric version of `fillCampoStr_fills`. -/
theorem fillCampoQ_fills (p s : Option ℚ) (hp : truthyQ p = false)
    (hs : truthyQ s = true) : fillCampoQ p s = s := by
  simp [fillCampoQ, hp, hs]

/-- The value fields of the merged record: the title (and every field outside
the nine-field completion list) comes from the principal unchanged, and each
of the nine content fields is the completion step applied to the principal and
secondary values. -/
theorem fusionar_campos (σ : Heap) (p s : Licitacion) :
    ((fusionar_licitaciones σ p s).2.titulo = p.titulo) ∧
    ((fusionar_licitaciones σ p s).2.fuente = p.fuente) ∧
    ((fusionar_licitaciones σ p s).2.expediente = p.expediente) ∧
    ((fusionar_licitaciones σ p s).2.resumen = fillCampoStr p.resumen s.resumen) ∧
    ((fusionar_licitaciones σ p s).2.organo_contratacion
      = fillCampoStr p.organo_contratacion s.organo_contratacion) ∧
    ((fusionar_licitaciones σ p s).2.tipo_contrato
      = fillCampoStr p.tipo_contrato s.tipo_contrato) ∧
    ((fusionar_licitaciones σ p s).2.procedimiento
      = fillCampoStr p.procedimiento s.procedimiento) ∧
    ((fusionar_licitaciones σ p s).2.presupuesto_base
      = fillCampoQ p.presupuesto_base s.presupuesto_base) ∧
    ((fusionar_licitaciones σ p s).2.valor_estimado
      = fillCampoQ p.valor_estimado s.valor_estimado) ∧
    ((fusionar_licitaciones σ p s).2.fecha_limite
      = fillCampoStr p.fecha_limite s.fecha_limite) ∧
    ((fusionar_licitaciones σ p s).2.cpv = fillCampoStr p.cpv s.cpv) ∧
    ((fusionar_licitaciones σ p s).2.lugar_ejecucion
      = fillCampoStr p.lugar_ejecucion s.lugar_ejecucion) := by
  cases hfa : p.fuentes_adicionales <;> cases hd : p.documentos <;>
    simp [fusionar_licitaciones, hfa, hd]

/-- C2: for every principal and secondary record and every field of the fixed
completion set (summary, contracting-body name, contract type, procedure, base
budget, estimated value, deadline date, classification codes, execution
location), the merged record keeps the principal value whenever it is present
(truthy), and takes the secondary value when the principal value is
null/empty and the secondary value is present; the title always stays the
principal title. -/
theorem fusionar_fills_fields (σ : Heap) (p s : Licitacion) :
    ((fusionar_licitaciones σ p s).2.titulo = p.titulo) ∧
    (truthyStr p.resumen = true → (fusionar_licitaciones σ p s).2.resumen = p.resumen) ∧
    (truthyStr p.resumen = false → truthyStr s.resumen = true →
      (fusionar_licitaciones σ p s).2.resumen = s.resumen) ∧
    (truthyStr p.organo_contratacion = true →
      (fusionar_licitaciones σ p s).2.organo_contratacion = p.organo_contratacion) ∧
    (truthyStr p.organo_contratacion = false → truthyStr s.organo_contratacion = true →
      (fusionar_licitaciones σ p s).2.organo_contratacion = s.organo_contratacion) ∧
    (truthyStr p.tipo_contrato = true →
      (fusionar_licitaciones σ p s).2.tipo_contrato = p.tipo_contrato) ∧
    (truthyStr p.tipo_contrato = false → truthyStr s.tipo_contrato = true →
      (fusionar_licitaciones σ p s).2.tipo_contrato = s.tipo_contrato) ∧
    (truthyStr p.procedimiento = true →
      (fusionar_licitaciones σ p s).2.procedimiento = p.procedimiento) ∧
    (truthyStr p.procedimiento = false → truthyStr s.procedimiento = true →
      (fusionar_licitaciones σ p s).2.procedimiento = s.procedimiento) ∧
    (truthyQ p.presupuesto_base = true →
      (fusionar_licitaciones σ p s).2.presupuesto_base = p.presupuesto_base) ∧
    (truthyQ p.presupuesto_base = false → truthyQ s.presupuesto_base = true →
      (fusionar_licitaciones σ p s).2.presupuesto_base = s.presupuesto_base) ∧
    (truthyQ p.valor_estimado = true →
      (fusionar_licitaciones σ p s).2.valor_estimado = p.valor_estimado) ∧
    (truthyQ p.valor_estimado = false → truthyQ s.valor_estimado = true →
      (fusionar_licitaciones σ p s).2.valor_estimado = s.valor_estimado) ∧
    (truthyStr p.fecha_limite = true →
      (fusionar_licitaciones σ p s).2.fecha_limite = p.fecha_limite) ∧
    (truthyStr p.fecha_limite = false → truthyStr s.fecha_limite = true →
      (fusionar_licitaciones σ p s).2.fecha_limite = s.fecha_limite) ∧
    (truthyStr p.cpv = true → (fusionar_licitaciones σ p s).2.cpv = p.cpv) ∧
    (truthyStr p.cpv = false → truthyStr s.cpv = true →
      (fusionar_licitaciones σ p s).2.cpv = s.cpv) ∧
    (truthyStr p.lugar_ejecucion = true →
      (fusionar_licitaciones σ p s).2.lugar_ejecucion = p.lugar_ejecucion) ∧
    (truthyStr p.lugar_ejecucion = false → truthyStr s.lugar_ejecucion = true →
      (fusionar_licitaciones σ p s).2.lugar_ejecucion = s.lugar_ejecucion) := by
  obtain ⟨ht, -, -, h4, h5, h6, h7, h8, h9, h10, h11, h12⟩ := fusionar_campos σ p s
  refine ⟨ht, ?_, ?_, ?_, ?_, ?_, ?_, ?_, ?_, ?_, ?_, ?_, ?_, ?_, ?_, ?_, ?_, ?_, ?_⟩
  · intro h; rw [h4, fillCampoStr_keeps _ _ h]
  · intro hp hs; rw [h4, fillCampoStr_fills _ _ hp hs]
  · intro h; rw [h5, fillCampoStr_keeps _ _ h]
  · intro hp hs; rw [h5, fillCampoStr_fills _ _ hp hs]
  · intro h; rw [h6, fillCampoStr_keeps _ _ h]
  · intro hp hs; rw [h6, fillCampoStr_fills _ _ hp hs]
  · intro h; rw [h7, fillCampoStr_keeps _ _ h]
  · intro hp hs; rw [h7, fillCampoStr_fills _ _ hp hs]
  · intro h; rw [h8, fillCampoQ_keeps _ _ h]
  · intro hp hs; rw [h8, fillCampoQ_fills _ _ hp hs]
  · intro h; rw [h9, fillCampoQ_keeps _ _ h]
  · intro hp hs; rw [h9, fillCampoQ_fills _ _ hp hs]
  · intro h; rw [h10, fillCampoStr_keeps _ _ h]
  · intro hp hs; rw [h10, fillCampoStr_fills _ _ hp hs]
  · intro h; rw [h11, fillCampoStr_keeps _ _ h]
  · intro hp hs; rw [h11, fillCampoStr_fills _ _ hp hs]
  · intro h; rw [h12, fillCampoStr_keeps _ _ h]
  · intro hp hs; rw [h12, fillCampoStr_fills _ _ hp hs]

/-- The principal record of the C2 witness: title A, budget missing. -/
def licC2p : Licitacion := { (default : Licitacion) with
  fuente := some "PLACSP"
  titulo := some "A" }

/-- The secondary record of the C2 witness: title B, budget 50000. -/
def licC2s : Licitacion := { (default : Licitacion) with
  fuente := some "GENCAT"
  titulo := some "B"
  presupuesto_base := some 50000 }

/-- Witness for C2: merging principal (title A, budget null) with secondary
(title B, budget 50000) keeps title A and fills budget 50000. -/
theorem fusionar_fills_fields_witness :
    truthyQ licC2p.presupuesto_base = false ∧ truthyQ licC2s.presupuesto_base = true ∧
    (fusionar_licitaciones default licC2p licC2s).2.titulo = some "A" ∧
    (fusionar_licitaciones default licC2p licC2s).2.presupuesto_base = some 50000 := by
  obtain ⟨ht, -, -, -, -, -, -, -, -, -, hfill, -⟩ :=
    fusionar_fills_fields default licC2p licC2s
  exact ⟨rfl, rfl, ht.trans rfl, (hfill rfl rfl).trans rfl⟩

/-! ## C10 -/

/-- The document list of a record: the list at its `documentos` address, or
empty when the key is absent. -/
def docsDe (σ : Heap) (l : Licitacion) : List Doc :=
  match l.documentos with
  | some a => σ.readDocs a
  | none => []

/-- The secondary documents that the merge appends to the list at address `a`:
those whose `nombre` is not among the names already present there. -/
def docsNuevos (σ : Heap) (a : ℕ) (s : Licitacion) : List Doc :=
  (docsDe σ s).filter (fun doc => decide (doc.nombre ∉ (σ.readDocs a).map (fun d => d.nombre)))

/-- Writing an additional-source list does not change any document list. -/
theorem readDocs_writeFuentes (σ : Heap) (b : ℕ) (l : List FuenteAdicional) (a : ℕ) :
    (σ.writeFuentes b l).readDocs a = σ.readDocs a := rfl

/-- Allocating an additional-source list does not change any document list. -/
theorem readDocs_allocFuentes (σ : Heap) (l : List FuenteAdicional) (a : ℕ) :
    (σ.allocFuentes l).1.readDocs a = σ.readDocs a := rfl

/-- Writing a document list does not change any additional-source list. -/
theorem readFuentes_writeDocs (σ : Heap) (a : ℕ) (l : List Doc) (b : ℕ) :
    (σ.writeDocs a l).readFuentes b = σ.readFuentes b := rfl

/-- Reading back a written document list at a valid address. -/
theorem readDocs_writeDocs_self (σ : Heap) (a : ℕ) (l : List Doc)
    (h : a < σ.docLists.length) : (σ.writeDocs a l).readDocs a = l := by
  show (σ.docLists.set a l).getD a [] = l
  rw [List.getD_eq_getElem?_getD, List.getElem?_set_self]
  · simp
  · simpa using h

/-- Reading back a written additional-source list at a valid address. -/
theorem readFuentes_writeFuentes_self (σ : Heap) (b : ℕ) (l : List FuenteAdicional)
    (h : b < σ.fuenteLists.length) : (σ.writeFuentes b l).readFuentes b = l := by
  show (σ.fuenteLists.set b l).getD b [] = l
  rw [List.getD_eq_getElem?_getD, List.getElem?_set_self]
  · simp
  · simpa using h

/-- C10: the merge copies the principal only shallowly.  When the principal
carries a `documentos` list (at valid address `a`), the returned record points
at the very same list object, that list object now holds the principal
documents followed by the new secondary documents — so whenever the merge
contributes new documents, the list reachable from the principal argument has
itself changed — and a pre-existing `fuentes_adicionales` list of the
principal is likewise extended in place with the secondary provenance entry. -/
theorem fusionar_aliasing (σ : Heap) (p s : Licitacion) (a : ℕ)
    (hpd : p.documentos = some a) (ha : a < σ.docLists.length) :
    ((fusionar_licitaciones σ p s).2.documentos = some a) ∧
    ((fusionar_licitaciones σ p s).1.readDocs a = σ.readDocs a ++ docsNuevos σ a s) ∧
    (docsNuevos σ a s ≠ [] → (fusionar_licitaciones σ p s).1.readDocs a ≠ σ.readDocs a) ∧
    (∀ b, p.fuentes_adicionales = some b → b < σ.fuenteLists.length →
      (fusionar_licitaciones σ p s).1.readFuentes b
        = σ.readFuentes b ++ [⟨s.fuente, s.id_licitacion, s.url⟩]) := by
  have main :
      ((fusionar_licitaciones σ p s).2.documentos = some a) ∧
      ((fusionar_licitaciones σ p s).1.readDocs a = σ.readDocs a ++ docsNuevos σ a s) ∧
      (∀ b, p.fuentes_adicionales = some b → b < σ.fuenteLists.length →
        (fusionar_licitaciones σ p s).1.readFuentes b
          = σ.readFuentes b ++ [⟨s.fuente, s.id_licitacion, s.url⟩]) := by
    cases hfa : p.fuentes_adicionales with
    | some b0 =>
        refine ⟨?_, ?_, ?_⟩
        · simp [fusionar_licitaciones, hfa, hpd]
        · simp only [fusionar_licitaciones, hfa, hpd]
          rw [readDocs_writeDocs_self]
          · cases hsd : s.documentos <;>
              simp [docsNuevos, docsDe, hsd, readDocs_writeFuentes]
          · exact ha
        · intro b hb hblen
          cases hb
          simp only [fusionar_licitaciones, hfa, hpd]
          rw [readFuentes_writeDocs, readFuentes_writeFuentes_self _ _ _ hblen]
    | none =>
        refine ⟨?_, ?_, ?_⟩
        · simp [fusionar_licitaciones, hfa, hpd]
        · simp only [fusionar_licitaciones, hfa, hpd]
          rw [readDocs_writeDocs_self]
          · cases hsd : s.documentos <;>
              simp [docsNuevos, docsDe, hsd, readDocs_writeFuentes, readDocs_allocFuentes,
                Heap.allocFuentes, Heap.writeFuentes, Heap.readDocs]
          · exact ha
        · intro b hb
          simp at hb
  refine ⟨main.1, main.2.1, ?_, main.2.2⟩
  intro hne heq
  rw [main.2.1] at heq
  apply hne
  have : σ.readDocs a ++ docsNuevos σ a s = σ.readDocs a ++ [] := by simpa using heq
  simpa using List.append_cancel_left this

/-- The heap of the C10 witness: the principal document list (one document
named doc1) at address 0, the secondary document list (doc2) at address 1,
and an empty additional-source list at address 0. -/
def heapC10 : Heap := ⟨[[⟨some "doc1", none, none⟩], [⟨some "doc2", none, none⟩]], [[]]⟩

/-- The principal record of the C10 witness, owning the lists at address 0. -/
def licC10p : Licitacion := { (default : Licitacion) with
  fuente := some "PLACSP"
  documentos := some 0
  fuentes_adicionales := some 0 }

/-- The secondary record of the C10 witness, contributing document doc2. -/
def licC10s : Licitacion := { (default : Licitacion) with
  fuente := some "GENCAT"
  id_licitacion := some "G-1"
  documentos := some 1 }

/-- Witness for C10: after the merge, the returned record still points at
address 0, the list there has grown by doc2 — so the list reachable from the
principal argument changed — and the principal additional-source list now
holds the GENCAT provenance entry. -/
theorem fusionar_aliasing_witness :
    licC10p.documentos = some 0 ∧ 0 < heapC10.docLists.length ∧
    (fusionar_licitaciones heapC10 licC10p licC10s).2.documentos = some 0 ∧
    (fusionar_licitaciones heapC10 licC10p licC10s).1.readDocs 0
      = [⟨some "doc1", none, none⟩, ⟨some "doc2", none, none⟩] ∧
    (fusionar_licitaciones heapC10 licC10p licC10s).1.readDocs 0 ≠ heapC10.readDocs 0 ∧
    (fusionar_licitaciones heapC10 licC10p licC10s).1.readFuentes 0
      = [⟨some "GENCAT", some "G-1", none⟩] := by
  obtain ⟨h1, h2, h3, h4⟩ := fusionar_aliasing heapC10 licC10p licC10s 0 rfl (by decide)
  exact ⟨rfl, by decide, h1, h2.trans (by decide), h3 (by decide),
    (h4 0 rfl (by decide)).trans (by decide)⟩

/-! ## C7 -/

/-- C7: on a reverse-chronological stream, `scrape_recent` returns exactly the
prefix of records preceding the first record whose update timestamp parses and
falls outside the cutoff; a record whose timestamp does not parse is included
and does not stop the stream. -/
theorem scrape_recent_takeWhile (parseISO : String → Option ℤ) (cutoff_date : ℤ)
    (l : List FeedEntry)
    (hdesc : l.Pairwise (fun a b => ordenDescendente parseISO a b = true)) :
    scrape_recent parseISO cutoff_date l
      = l.takeWhile (fun e => ! fueraDeVentana parseISO cutoff_date e) := by
  induction l with
  | nil => rfl
  | cons e rest ih =>
      have ht : rest.Pairwise (fun a b => ordenDescendente parseISO a b = true) :=
        (List.pairwise_cons.mp hdesc).2
      rw [List.takeWhile_cons]
      cases hp : parseISO (e.fecha_actualizacion.getD "") with
      | some fecha =>
          by_cases hf : fecha < cutoff_date
          · simp [scrape_recent, fueraDeVentana, hp, hf]
          · simp [scrape_recent, fueraDeVentana, hp, hf, ih ht]
      | none =>
          simp [scrape_recent, fueraDeVentana, hp, ih ht]

/-- The timestamp parser of the C7 witness: entries t1 to t6 parse to 10 down
to 5, entry t7 to 3, entries t8 to t10 to 2, 1, 0; everything else fails. -/
def parseC7 : String → Option ℤ := fun s =>
  if s = "t1" then some 10 else if s = "t2" then some 9 else if s = "t3" then some 8
  else if s = "t4" then some 7 else if s = "t5" then some 6 else if s = "t6" then some 5
  else if s = "t7" then some 3 else if s = "t8" then some 2 else if s = "t9" then some 1
  else if s = "t10" then some 0 else none

/-- The descending 10-record stream of the C7 witness. -/
def streamC7 : List FeedEntry :=
  [⟨some "t1", "r1"⟩, ⟨some "t2", "r2"⟩, ⟨some "t3", "r3"⟩, ⟨some "t4", "r4"⟩,
   ⟨some "t5", "r5"⟩, ⟨some "t6", "r6"⟩, ⟨some "t7", "r7"⟩, ⟨some "t8", "r8"⟩,
   ⟨some "t9", "r9"⟩, ⟨some "t10", "r10"⟩]

/-- Witness for C7: with cutoff 4 the 7th record is the first outside the
window, and the adapter yields exactly records 1 to 6. -/
theorem scrape_recent_takeWhile_witness :
    streamC7.Pairwise (fun a b => ordenDescendente parseC7 a b = true) ∧
    scrape_recent parseC7 4 streamC7 = streamC7.take 6 :=
  ⟨by decide, (scrape_recent_takeWhile parseC7 4 streamC7 (by decide)).trans (by decide)⟩

/-! ## C9 -/

/-- Counterexample for C9, refuting two parts of the claim at concrete
records.  First, the Gencat record with title big and summary data has no
matching classification code and no configured keyword is a substring of its
title alone or of its summary alone, yet `_es_licitacion_tic` returns true,
because the keyword big data matches across the space-joined concatenation of
title and summary.  Second, the tolerance clause fails: a PLACSP record with
no codes whose title value is `None` — exactly what `parse_entry` stores for a
missing or empty title — makes `es_licitacion_tic` raise `AttributeError`
instead of returning false. -/
theorem gencat_keyword_spans_union :
    gencat_es_licitacion_tic ⟨some "", some "big", some "data"⟩ = .ok true ∧
    claimRelevant (CPV_TIC_GENCAT.map (fun c => pyTake c 2)) KEYWORDS_TIC_GENCAT
      [""] "big" "data" = false ∧
    es_licitacion_tic ⟨[], none, some ""⟩ = .exn := by
  refine ⟨by decide, by decide, by decide⟩

/-- C9 (amended): on records whose consulted text values are strings, the
PLACSP classifier returns, without raising, exactly the claimed predicate —
some CPV code starts with a configured prefix, or some configured keyword is a
substring of the lowercased title or of the lowercased summary — and the
GENCAT classifier differs only in that the keyword (lowercased) is sought in
the space-joined concatenation of the lowercased title and summary, so a
keyword may also match spanning the boundary.  The tolerance clause holds only
for absent keys and empty strings: a PLACSP record whose title (or summary)
value is `None` — produced by `parse_entry` for a missing or empty element —
raises unless an earlier check already returned true, and a GENCAT record
whose code value is `None` raises at the prefix test.  Records with absent or
empty codes and text are classified false without raising, and a PLACSP record
whose only signal is the code 72100000-6 is classified true, the configured
prefix set containing 72. -/
theorem es_licitacion_tic_spec :
    (∀ (codes : List String) (t r : String),
      es_licitacion_tic ⟨codes, some t, some r⟩
        = .ok (claimRelevant CPV_TIC_PLACSP KEYWORDS_TIC_PLACSP codes t r)) ∧
    (∀ (codes : List String) (r : Option String),
      es_licitacion_tic ⟨codes, none, r⟩
        = if codes.any (fun cpv => CPV_TIC_PLACSP.any (fun cpv_tic => pyStartsWith cpv cpv_tic))
          then .ok true
          else .exn) ∧
    (∀ (codes : List String) (t : String),
      es_licitacion_tic ⟨codes, some t, none⟩
        = if codes.any (fun cpv => CPV_TIC_PLACSP.any (fun cpv_tic => pyStartsWith cpv cpv_tic))
          then .ok true
          else if KEYWORDS_TIC_PLACSP.any (fun keyword => strContains (pyToLower t) keyword)
          then .ok true
          else .exn) ∧
    (∀ (c : String) (t d : Option String),
      gencat_es_licitacion_tic ⟨some c, t, d⟩
        = .ok ((CPV_TIC_GENCAT.map (fun x => pyTake x 2)).any (fun pre => pyStartsWith c pre) ||
            KEYWORDS_TIC_GENCAT.any (fun k =>
              strContains (pyToLower (t.getD "") ++ " " ++ pyToLower (d.getD ""))
                (pyToLower k)))) ∧
    (∀ (t d : Option String), gencat_es_licitacion_tic ⟨none, t, d⟩ = .exn) ∧
    es_licitacion_tic ⟨[], some "", some ""⟩ = .ok false ∧
    gencat_es_licitacion_tic ⟨some "", none, none⟩ = .ok false ∧
    "72" ∈ CPV_TIC_PLACSP ∧
    es_licitacion_tic ⟨["72100000-6"], none, none⟩ = .ok true := by
  refine ⟨?_, fun codes r => rfl, fun codes t => rfl, ?_, fun t d => rfl,
    by decide, by decide, by decide, by decide⟩
  · intro codes t r
    unfold es_licitacion_tic claimRelevant
    cases h1 : codes.any (fun cpv =>
        CPV_TIC_PLACSP.any (fun cpv_tic => pyStartsWith cpv cpv_tic)) <;>
      cases h2 : KEYWORDS_TIC_PLACSP.any (fun keyword =>
          strContains (pyToLower t) keyword) <;>
        cases h3 : KEYWORDS_TIC_PLACSP.any (fun keyword =>
            strContains (pyToLower r) keyword) <;>
          simp [h1, h2, h3]
  · intro c t d
    unfold gencat_es_licitacion_tic
    dsimp only
    cases hc : CPV_TIC_GENCAT.any (fun tic_cpv => pyStartsWith c (pyTake tic_cpv 2)) with
    | true =>
        have h2 : CPV_TIC_GENCAT.any
            ((fun pre => pyStartsWith c pre) ∘ fun x => pyTake x 2) = true := hc
        rw [List.any_map, if_pos rfl, h2, Bool.true_or]
    | false =>
        have h2 : CPV_TIC_GENCAT.any
            ((fun pre => pyStartsWith c pre) ∘ fun x => pyTake x 2) = false := hc
        rw [List.any_map, if_neg Bool.false_ne_true, h2, Bool.false_or]

/-! ## C8 -/

/-- The timestamp parser of the C8 input: the scraped update timestamp parses
to a fixed instant; everything else fails to parse. -/
def parseC8 : String → Option ℤ := fun s =>
  if s = "2025-10-15T17:00:00" then some 1760540400 else none

/-- A JSON serialiser stub for the C8 input (the input carries no CPV list,
so it is never consulted). -/
def dumpsC8 : List String → String := fun _ => ""

/-- The C8 failing input: a minimal scraped PLACSP record, with the update
timestamp as the raw string the feed carries. -/
def dataC8 : Attrs :=
  [("id_licitacion", .vstr "PLACSP-123"), ("titulo", .vstr "Obras TIC"),
   ("fecha_actualizacion", .vstr "2025-10-15T17:00:00")]

/-- C8 evaluation at the failing input: ingesting a scraped record never
persists or updates anything in this source tree.  The `Licitacion` model
defines no `id_licitacion` attribute, so `get_by_id_licitacion` raises
`AttributeError` before any query; the per-record handler swallows the
exception and the store stays empty, on the second identical ingestion as on
the first; and even the constructor alone would reject the scraped keys with
`TypeError`.  The claim instead requires the first ingestion to persist the
record as new and the second identical one to return updated=false after a
field-by-field diff. -/
theorem ingest_never_persists :
    "id_licitacion" ∉ LICITACION_ATTRS ∧
    get_by_id_licitacion [] (lookupAttr dataC8 "id_licitacion") = .exn ∧
    ingest_one parseC8 0 dumpsC8 [] dataC8 = ([], false, false) ∧
    ingest_one parseC8 0 dumpsC8 (ingest_one parseC8 0 dumpsC8 [] dataC8).1 dataC8
      = ([], false, false) ∧
    service_create parseC8 0 dumpsC8 dataC8 = .exn := by
  refine ⟨by decide, by decide, by decide, by decide, by decide⟩

/-! ## C3 -/

/-- `restantes` only inspects membership of positions at or beyond its start
index: two claimed-index sets that agree there give the same remainder. -/
theorem restantes_congr (ord : List Licitacion) (p q : List ℕ) :
    ∀ n i, ord.length - i ≤ n → (∀ k, i ≤ k → (k ∈ p ↔ k ∈ q)) →
      restantes ord p i = restantes ord q i := by
  intro n
  induction n with
  | zero =>
      intro i hle _
      have h : ¬ i < ord.length := by omega
      unfold restantes
      simp [h]
  | succ n ih =>
      intro i hle hpq
      unfold restantes
      by_cases h : i < ord.length
      · simp only [dif_pos h]
        have hrec : restantes ord p (i+1) = restantes ord q (i+1) :=
          ih (i+1) (by omega) (fun k hk => hpq k (by omega))
        by_cases hm : i ∈ q
        · rw [if_pos ((hpq i le_rfl).mpr hm), if_pos hm, hrec]
        · rw [if_neg (fun hc => hm ((hpq i le_rfl).mp hc)), if_neg hm, hrec]
      · simp [h]

/-- Every index collected by the inner scan is at or beyond its start index. -/
theorem duplicadosDesde_ge (simt : String → String → ℚ) (a : Licitacion)
    (ord : List Licitacion) (proc : List ℕ) :
    ∀ n j, ord.length - j ≤ n → ∀ k, k ∈ duplicadosDesde simt a ord proc j → j ≤ k := by
  intro n
  induction n with
  | zero =>
      intro j hle k hk
      have h : ¬ j < ord.length := by omega
      unfold duplicadosDesde at hk
      simp [h] at hk
  | succ n ih =>
      intro j hle k hk
      unfold duplicadosDesde at hk
      by_cases h : j < ord.length
      · rw [dif_pos h] at hk
        by_cases hm : j ∈ proc
        · rw [if_pos hm] at hk
          exact le_trans (by omega) (ih (j+1) (by omega) k hk)
        · rw [if_neg hm] at hk
          by_cases hd : son_duplicadas simt a (ord.get ⟨j, h⟩)
          · rw [if_pos hd] at hk
            rcases List.mem_cons.mp hk with rfl | hk
            · exact le_rfl
            · exact le_trans (by omega) (ih (j+1) (by omega) k hk)
          · rw [if_neg hd] at hk
            exact le_trans (by omega) (ih (j+1) (by omega) k hk)
      · rw [dif_neg h] at hk
        simp at hk

/-- With no claimed indices, the remainder from position `i` is the drop. -/
theorem restantes_nil (ord : List Licitacion) :
    ∀ n i, ord.length - i ≤ n → restantes ord [] i = ord.drop i := by
  intro n
  induction n with
  | zero =>
      intro i hle
      have h : ¬ i < ord.length := by omega
      unfold restantes
      simp [h, List.drop_eq_nil_of_le (show ord.length ≤ i by omega)]
  | succ n ih =>
      intro i hle
      unfold restantes
      by_cases h : i < ord.length
      · simp only [dif_pos h, List.not_mem_nil, if_false]
        rw [ih (i+1) (by omega), List.drop_eq_getElem_cons h]
        simp
      · simp [h, List.drop_eq_nil_of_le (show ord.length ≤ i by omega)]

/-- The records at a list of positions (`ordenadas[idx]` for each index). -/
def valoresEn (ord : List Licitacion) (idxs : List ℕ) : List Licitacion :=
  idxs.map (fun k => ord.getD k default)

/-- The records at the indices the inner scan collects are exactly the
not-yet-claimed records from that position on that match the anchor. -/
theorem valoresEn_duplicadosDesde (simt : String → String → ℚ) (a : Licitacion)
    (ord : List Licitacion) (proc : List ℕ) :
    ∀ n j, ord.length - j ≤ n →
      valoresEn ord (duplicadosDesde simt a ord proc j)
        = (restantes ord proc j).filter (fun b => son_duplicadas simt a b) := by
  intro n
  induction n with
  | zero =>
      intro j hle
      have h : ¬ j < ord.length := by omega
      unfold duplicadosDesde restantes
      simp [h, valoresEn]
  | succ n ih =>
      intro j hle
      unfold duplicadosDesde restantes
      by_cases h : j < ord.length
      · simp only [dif_pos h]
        by_cases hm : j ∈ proc
        · simp only [if_pos hm]
          exact ih (j+1) (by omega)
        · simp only [if_neg hm]
          have hget : ord.getD j default = ord.get ⟨j, h⟩ := by
            rw [List.getD_eq_getElem?_getD, List.getElem?_eq_getElem h]
            simp
          by_cases hd : son_duplicadas simt a (ord.get ⟨j, h⟩)
          · rw [if_pos hd, List.filter_cons_of_pos (by simpa using hd)]
            show ord.getD j default :: valoresEn ord (duplicadosDesde simt a ord proc (j+1)) = _
            rw [hget, ih (j+1) (by omega)]
          · rw [if_neg hd, List.filter_cons_of_neg (by simpa using hd)]
            exact ih (j+1) (by omega)
      · unfold valoresEn
        simp [h]

/-- Claiming the scanned matches (plus any indices before the scan start)
removes exactly the matching records from the remainder. -/
theorem restantes_after_scan (simt : String → String → ℚ) (a : Licitacion)
    (ord : List Licitacion) (proc : List ℕ) :
    ∀ n j extra, ord.length - j ≤ n → (∀ k, k ∈ extra → k < j) →
      restantes ord ((proc ++ duplicadosDesde simt a ord proc j) ++ extra) j
        = (restantes ord proc j).filter (fun b => ! son_duplicadas simt a b) := by
  intro n
  induction n with
  | zero =>
      intro j extra hle _
      have h : ¬ j < ord.length := by omega
      unfold restantes
      simp [h]
  | succ n ih =>
      intro j extra hle hextra
      have hdup1 : ∀ hj : j < ord.length, j ∈ proc →
          duplicadosDesde simt a ord proc j = duplicadosDesde simt a ord proc (j+1) := by
        intro hj hm
        conv_lhs => unfold duplicadosDesde
        rw [dif_pos hj, if_pos hm]
      by_cases h : j < ord.length
      · by_cases hm : j ∈ proc
        · -- claimed before the scan: both sides skip position j
          rw [hdup1 h hm]
          conv_lhs => unfold restantes
          rw [dif_pos h, if_pos (by simp [hm])]
          conv_rhs => unfold restantes
          rw [dif_pos h, if_pos hm]
          exact ih (j+1) extra (by omega) (fun k hk => by have := hextra k hk; omega)
        · have hget : ord.getD j default = ord.get ⟨j, h⟩ := by
            rw [List.getD_eq_getElem?_getD, List.getElem?_eq_getElem h]
            simp
          by_cases hd : son_duplicadas simt a (ord.get ⟨j, h⟩)
          · -- position j is matched: it is claimed by the scan and filtered out
            have hdup : duplicadosDesde simt a ord proc j
                = j :: duplicadosDesde simt a ord proc (j+1) := by
              conv_lhs => unfold duplicadosDesde
              rw [dif_pos h, if_neg hm, if_pos hd]
            rw [hdup]
            conv_lhs => unfold restantes
            rw [dif_pos h, if_pos (by simp)]
            conv_rhs => unfold restantes
            rw [dif_pos h, if_neg hm, List.filter_cons_of_neg (by simpa using hd)]
            rw [restantes_congr ord
              ((proc ++ j :: duplicadosDesde simt a ord proc (j+1)) ++ extra)
              ((proc ++ duplicadosDesde simt a ord proc (j+1)) ++ (j :: extra))
              (ord.length - (j+1)) (j+1) le_rfl
              (by intro k _; simp; tauto)]
            exact ih (j+1) (j :: extra) (by omega)
              (fun k hk => by
                rcases List.mem_cons.mp hk with rfl | hk
                · omega
                · have := hextra k hk; omega)
          · -- position j is unmatched: it stays and passes the filter
            have hdup : duplicadosDesde simt a ord proc j
                = duplicadosDesde simt a ord proc (j+1) := by
              conv_lhs => unfold duplicadosDesde
              rw [dif_pos h, if_neg hm, if_neg hd]
            rw [hdup]
            have hnot : j ∉ (proc ++ duplicadosDesde simt a ord proc (j+1)) ++ extra := by
              intro hc
              rcases List.mem_append.mp hc with hc | hc
              · rcases List.mem_append.mp hc with hc | hc
                · exact hm hc
                · have := duplicadosDesde_ge simt a ord proc (ord.length - (j+1)) (j+1)
                    le_rfl j hc
                  omega
              · have := hextra j hc
                omega
            conv_lhs => unfold restantes
            rw [dif_pos h, if_neg hnot]
            conv_rhs => unfold restantes
            rw [dif_pos h, if_neg hm, List.filter_cons_of_pos (by simpa using hd)]
            rw [ih (j+1) extra (by omega) (fun k hk => by have := hextra k hk; omega)]
      · unfold restantes
        simp [h]

/-- Unfolding equation of `clusterSpec` on the empty batch. -/
theorem clusterSpec_nil (simt : String → String → ℚ) (σ : Heap) :
    clusterSpec simt σ [] = (σ, []) := by
  conv_lhs => unfold clusterSpec

/-- Unfolding equation of `clusterSpec` on a non-empty batch. -/
theorem clusterSpec_cons (simt : String → String → ℚ) (σ : Heap) (anchor : Licitacion)
    (rest : List Licitacion) :
    clusterSpec simt σ (anchor :: rest)
      = ((clusterSpec simt
            (fusionarFold σ anchor (rest.filter (fun b => son_duplicadas simt anchor b))).1
            (rest.filter (fun b => ! son_duplicadas simt anchor b))).1,
         (fusionarFold σ anchor (rest.filter (fun b => son_duplicadas simt anchor b))).2
           :: (clusterSpec simt
                (fusionarFold σ anchor (rest.filter (fun b => son_duplicadas simt anchor b))).1
                (rest.filter (fun b => ! son_duplicadas simt anchor b))).2) := by
  conv_lhs => unfold clusterSpec

/-- The outer index loop of `detectar_duplicados_en_lista`, started at
position `i` with claimed set `proc`, heap `σ` and output so far `acc`,
computes the specification clustering pass of the records it has not yet
claimed, appended to `acc`. -/
theorem detectarAux_clusterSpec (simt : String → String → ℚ) (ord : List Licitacion) :
    ∀ n i proc σ acc, ord.length - i ≤ n →
      detectarAux simt ord i proc σ acc
        = ((clusterSpec simt σ (restantes ord proc i)).1,
           acc ++ (clusterSpec simt σ (restantes ord proc i)).2) := by
  intro n
  induction n with
  | zero =>
      intro i proc σ acc hle
      have h : ¬ i < ord.length := by omega
      unfold detectarAux restantes
      simp [h, clusterSpec_nil]
  | succ n ih =>
      intro i proc σ acc hle
      by_cases h : i < ord.length
      · by_cases hm : i ∈ proc
        · have hstep : detectarAux simt ord i proc σ acc
              = detectarAux simt ord (i+1) proc σ acc := by
            conv_lhs => unfold detectarAux
            rw [dif_pos h, if_pos hm]
          have hres : restantes ord proc i = restantes ord proc (i+1) := by
            conv_lhs => unfold restantes
            rw [dif_pos h, if_pos hm]
          rw [hstep, hres]
          exact ih (i+1) proc σ acc (by omega)
        · have hres : restantes ord proc i
              = ord.get ⟨i, h⟩ :: restantes ord proc (i+1) := by
            conv_lhs => unfold restantes
            rw [dif_pos h, if_neg hm]
          have hstep : detectarAux simt ord i proc σ acc
              = detectarAux simt ord (i+1)
                  ((proc ++ duplicadosDesde simt (ord.get ⟨i, h⟩) ord proc (i+1)) ++ [i])
                  (fusionarFold σ (ord.get ⟨i, h⟩)
                    (valoresEn ord (duplicadosDesde simt (ord.get ⟨i, h⟩) ord proc (i+1)))).1
                  (acc ++ [(fusionarFold σ (ord.get ⟨i, h⟩)
                    (valoresEn ord (duplicadosDesde simt (ord.get ⟨i, h⟩) ord proc (i+1)))).2]) := by
            conv_lhs => unfold detectarAux
            rw [dif_pos h, if_neg hm]
            rfl
          rw [hstep, ih (i+1) _ _ _ (by omega),
            restantes_after_scan simt (ord.get ⟨i, h⟩) ord proc (ord.length - (i+1)) (i+1) [i]
              le_rfl (by intro k hk; simp at hk; omega),
            valoresEn_duplicadosDesde simt (ord.get ⟨i, h⟩) ord proc (ord.length - (i+1)) (i+1)
              le_rfl,
            hres, clusterSpec_cons]
          simp [List.append_assoc]
      · have hfin : detectarAux simt ord i proc σ acc = (σ, acc) := by
          conv_lhs => unfold detectarAux
          rw [dif_neg h]
        have hres : restantes ord proc i = [] := by
          conv_lhs => unfold restantes
          rw [dif_neg h]
        rw [hfin, hres, clusterSpec_nil]
        simp

/-- C3: `detectar_duplicados_en_lista` first sorts the batch by the fixed
source-priority order — the sorted batch is a permutation of the input,
pairwise ordered by the priority key, with PLACSP priority 0, GENCAT
priority 1 and every other source 999 (last) — and then equals the
specification clustering pass over the sorted batch: a single left-to-right
pass in which the first unclaimed record anchors a cluster, every later
unclaimed record matching the anchor (matches evaluated only against that
anchor, never within the forming cluster) is claimed and folded into it
left-to-right in sorted order, and the rest is processed recursively. -/
theorem detectar_duplicados_spec (simt : String → String → ℚ) (σ : Heap)
    (licitaciones : List Licitacion) :
    detectar_duplicados_en_lista simt σ licitaciones
      = clusterSpec simt σ (sortPorFuente licitaciones) ∧
    (sortPorFuente licitaciones).Pairwise
      (fun a b => clavePrioridad a ≤ clavePrioridad b) ∧
    (sortPorFuente licitaciones).Perm licitaciones ∧
    prioridad_fuente "PLACSP" = 0 ∧ prioridad_fuente "GENCAT" = 1 ∧
    (∀ f : String, f = "PLACSP" ∨ f = "GENCAT" ∨ prioridad_fuente f = 999) := by
  refine ⟨?_, ?_, ?_, rfl, rfl, ?_⟩
  · by_cases hnil : licitaciones = []
    · subst hnil
      simp [detectar_duplicados_en_lista, sortPorFuente, clusterSpec_nil]
    · unfold detectar_duplicados_en_lista
      rw [if_neg hnil,
        detectarAux_clusterSpec simt (sortPorFuente licitaciones)
          (sortPorFuente licitaciones).length 0 [] σ [] (by omega),
        restantes_nil (sortPorFuente licitaciones) (sortPorFuente licitaciones).length 0
          (by omega)]
      simp
  · have hs := @List.sorted_mergeSort _
      (fun a b => decide (clavePrioridad a ≤ clavePrioridad b))
      (fun a b c hab hbc => by simp at hab hbc ⊢; omega)
      (fun a b => by simpa using Nat.le_total (clavePrioridad a) (clavePrioridad b))
      licitaciones
    exact hs.imp (fun h => by simpa using h)
  · exact List.mergeSort_perm licitaciones _
  · intro f
    by_cases h1 : f = "PLACSP"
    · exact Or.inl h1
    · by_cases h2 : f = "GENCAT"
      · exact Or.inr (Or.inl h2)
      · exact Or.inr (Or.inr (by simp [prioridad_fuente, h1, h2]))
